import Mathlib

/-
Verification of the filter-and-aggregate query layer of the Missing Migrants
dashboard repository.

The embedding models the pandas data frame `MM` as a `List Record`, one entry
per CSV row.  Equality filters on data-frame columns become decidable equality
tests on record fields; a pandas `NaN` in a categorical or nullable column is
modelled as `Option.none` (pandas equality with `NaN` is always false, which
matches `decide (none = some v) = false`).  The one-hot cause-of-death columns
are modelled as an association list from column name to the 0/1 flag value.
Coordinates are only ever compared with the literal 0, so they are carried as
integers.  All functions are translated from the Python sources named in the
doc comments.
-/

namespace MMSpec

/-- One row of the cleaned CSV as loaded by `app.py` (`MM`).  Field names
follow the data-frame column names. -/
structure Record where
  Incident_ID : String
  Reported_Year : Option Int
  Region : Option String
  Country : Option String
  Migration_Route : Option String
  codFlags : List (String × Nat)
  Number_Dead : Int
  Minimum_Missing : Int
  Total_Dead_and_Missing : Int
  Females : Int
  Males : Int
  Unknown_Sex : Int
  Latitude : Int
  Longitude : Int
  deriving DecidableEq, Repr

/-- `df[c]` for a one-hot cause-of-death column `c`: the 0/1 flag stored for
that column name (columns always exist in the frame; a name that is not in the
association list reads as 0). -/
def flagValue (r : Record) (c : String) : Nat :=
  (r.codFlags.lookup c).getD 0

/-- The five dropdown values handed to the filter callbacks.  `none` stands
for the wildcard "All" (and for Python `None`, which `app.py` treats the same
way: `x not in (None, "All")`). -/
structure Selection where
  Reported_Year : Option Int
  Region : Option String
  Country : Option String
  COD : Option String
  Migration_Route : Option String
  deriving DecidableEq, Repr

/-- The all-wildcard selection: every dropdown on "All". -/
def selAll : Selection :=
  { Reported_Year := none, Region := none, Country := none,
    COD := none, Migration_Route := none }

/-- `COD_COLUMNS` of `app.py` (`MM.columns[23:30]` of the standardized CSV)
and of `app_advanced.py` (the literal list, same seven names, same order). -/
def COD_COLUMNS : List String :=
  ["Other Accidents", "Drowning", "Lack of Shelter, Food, or Water",
   "Mixed or unknown", "Sickness", "Transportation Accident", "Violence"]

/-- `needed_cols` of `app.py`'s `update_cod_bar` (six names; it omits
"Violence"). -/
def needed_cols : List String :=
  ["Other Accidents", "Drowning", "Lack of Shelter, Food, or Water",
   "Mixed or unknown", "Sickness", "Transportation Accident"]

/-- The boolean mask built row-wise by `_filter_mm_data_cached` (src/app.py
lines 448-474): conjunction of the five per-column predicates; a non-wildcard
cause of death contributes a conjunct only when it is one of `COD_COLUMNS`. -/
def rowMask (s : Selection) (r : Record) : Bool :=
  (match s.Reported_Year with
   | none => true
   | some y => decide (r.Reported_Year = some y)) &&
  (match s.Region with
   | none => true
   | some v => decide (r.Region = some v)) &&
  (match s.Country with
   | none => true
   | some v => decide (r.Country = some v)) &&
  (match s.Migration_Route with
   | none => true
   | some v => decide (r.Migration_Route = some v)) &&
  (match s.COD with
   | none => true
   | some c => if c ∈ COD_COLUMNS then decide (flagValue r c = 1) else true)

/-- `_filter_mm_data_cached` (src/app.py lines 448-474): one-pass boolean-mask
filter, `df.loc[mask]`. -/
def filter_mm_data (s : Selection) (df : List Record) : List Record :=
  df.filter (rowMask s)

namespace Legacy

/-- The store callback `filter` of src/Missing_Migrants_061121.py lines
418-446: five sequential re-filters.  The function computes `MM_COD` from the
cause-of-death dropdown but its `return` statement hands back `MM_Route`, so
the cause-of-death constraint never reaches the returned subset.  An unknown
cause-of-death key raises a `KeyError` while `MM_COD` is being computed
(`MM[COD]`), modelled as `none`. -/
def filter (s : Selection) (store : List Record) : Option (List Record) :=
  let mmYear := match s.Reported_Year with
    | none => store
    | some y => store.filter (fun r => decide (r.Reported_Year = some y))
  let mmRegion := match s.Region with
    | none => mmYear
    | some v => mmYear.filter (fun r => decide (r.Region = some v))
  let mmCountry := match s.Country with
    | none => mmRegion
    | some v => mmRegion.filter (fun r => decide (r.Country = some v))
  let mmRoute := match s.Migration_Route with
    | none => mmCountry
    | some v => mmCountry.filter (fun r => decide (r.Migration_Route = some v))
  match s.COD with
  | none => some mmRoute
  | some c => if c ∈ COD_COLUMNS then some mmRoute else none

end Legacy

/-- Incident count of `update_summary` (src/app.py lines 505-518):
`df["Incident_ID"].nunique()`, the number of distinct identifiers in the
filtered subset. -/
def update_summary_incidents (data : List Record) : Nat :=
  (data.map Record.Incident_ID).dedup.length

/-- Dead-and-missing total of `update_summary` (src/app.py lines 505-518):
`df["Total_Dead_and_Missing"].sum()`. -/
def update_summary_total (data : List Record) : Int :=
  (data.map Record.Total_Dead_and_Missing).sum

/-- Ordering used by `update_cod_bar`'s
`sort_values(by="Incident_Count", ascending=True)`. -/
def countLe (p q : String × Nat) : Prop :=
  p.2 ≤ q.2

instance : DecidableRel countLe :=
  fun p q => inferInstanceAs (Decidable (p.2 ≤ q.2))

instance : IsTotal (String × Nat) countLe :=
  ⟨fun p q => Nat.le_total p.2 q.2⟩

instance : IsTrans (String × Nat) countLe :=
  ⟨fun _ _ _ h h' => Nat.le_trans h h'⟩

/-- `update_cod_bar` (src/app.py lines 674-716): on empty data the callback
returns an empty figure; otherwise `df[needed_cols].sum()` (the per-category
sums of the 0/1 flags) sorted ascending by count. -/
def update_cod_bar (data : List Record) : List (String × Nat) :=
  if data.isEmpty then []
  else
    List.insertionSort countLe
      (needed_cols.map (fun c => (c, (data.map (fun r => flagValue r c)).sum)))

/-- `update_region_pie` (src/app.py lines 719-750): the pie groups
`Total_Dead_and_Missing` by `Region` over the filtered subset; rows with a
missing region carry no group name. -/
def update_region_pie (data : List Record) : List (String × Int) :=
  ((data.filterMap Record.Region).dedup).map
    (fun g =>
      (g, ((data.filter (fun r => decide (r.Region = some g))).map
            Record.Total_Dead_and_Missing).sum))

/-- `update_sex_pie` (src/app.py lines 793-828): the three scalar sums of
`Females`, `Males`, `Unknown_Sex` over the filtered subset. -/
def update_sex_pie (data : List Record) : Int × Int × Int :=
  ((data.map Record.Females).sum,
   (data.map Record.Males).sum,
   (data.map Record.Unknown_Sex).sum)

/-- Rows handed to `px.scatter_mapbox` by `update_map` (src/app.py lines
521-583): the whole filtered subset; no row is dropped for its coordinates. -/
def update_map (data : List Record) : List Record :=
  data

/-- Rows kept by `update_animated_map` (src/app_advanced.py lines 373-384):
`df[(df['Latitude'] != 0) & (df['Longitude'] != 0)]`. -/
def update_animated_map (data : List Record) : List Record :=
  data.filter (fun r => decide (r.Latitude ≠ 0) && decide (r.Longitude ≠ 0))

/-- `get_primary_cod` (src/app_advanced.py lines 81-88): the first column of
`COD_COLUMNS` whose flag is 1, else "Unknown". -/
def get_primary_cod (r : Record) : String :=
  match COD_COLUMNS.find? (fun c => decide (flagValue r c = 1)) with
  | some c => c
  | none => "Unknown"

/-- The query layer's result: the filtered subset together with the scalar
summaries and grouped aggregates the dashboard derives from it. -/
structure QueryResult where
  records : List Record
  incidentCount : Nat
  totalDeadAndMissing : Int
  byRegion : List (String × Int)
  byCod : List (String × Nat)
  bySex : Int × Int × Int
  deriving DecidableEq, Repr

/-- The filter-aggregate engine: one shared filtered pass
(`_filter_mm_data_cached` via the `store-data` store) feeding the summary and
chart callbacks of `app.py`. -/
def query (s : Selection) (store : List Record) : QueryResult :=
  let recs := filter_mm_data s store
  { records := recs,
    incidentCount := update_summary_incidents recs,
    totalDeadAndMissing := update_summary_total recs,
    byRegion := update_region_pie recs,
    byCod := update_cod_bar recs,
    bySex := update_sex_pie recs }

/-- A CSV row before the numeric coercions of src/app.py lines 36-46:
`Number_Dead` and `Minimum_Missing` may fail numeric parsing (`none`), and no
`Total_Dead_and_Missing` value is kept from the file. -/
structure RawRecord where
  Incident_ID : String
  Reported_Year : Option Int
  Region : Option String
  Country : Option String
  Migration_Route : Option String
  codFlags : List (String × Nat)
  Number_Dead : Option Int
  Minimum_Missing : Option Int
  Females : Int
  Males : Int
  Unknown_Sex : Int
  Latitude : Int
  Longitude : Int
  deriving DecidableEq, Repr

/-- The startup preprocessing of src/app.py lines 36-46 applied to one row:
`pd.to_numeric(...).fillna(0)` for the two count columns, and
`Total_Dead_and_Missing` overwritten with their sum. -/
def preprocess (x : RawRecord) : Record :=
  let nd := x.Number_Dead.getD 0
  let mm := x.Minimum_Missing.getD 0
  { Incident_ID := x.Incident_ID,
    Reported_Year := x.Reported_Year,
    Region := x.Region,
    Country := x.Country,
    Migration_Route := x.Migration_Route,
    codFlags := x.codFlags,
    Number_Dead := nd,
    Minimum_Missing := mm,
    Total_Dead_and_Missing := nd + mm,
    Females := x.Females,
    Males := x.Males,
    Unknown_Sex := x.Unknown_Sex,
    Latitude := x.Latitude,
    Longitude := x.Longitude }

/-- Loading `MM` at startup (src/app.py section A): every CSV row is coerced
by `preprocess`. -/
def load (xs : List RawRecord) : List Record :=
  xs.map preprocess

/-- `Unknown_Age_Status` derivation of src/run_cleaner_refactored.py line
149. -/
def Unknown_Age_Status (total children : Int) : Int :=
  total - children

/-- `Confirmed_Adults` derivation of src/run_cleaner_refactored.py lines
150-154: `np.where(Unknown_Age_Status != 0, Males + Females - Children, 0)`. -/
def Confirmed_Adults (total females males children : Int) : Int :=
  if Unknown_Age_Status total children ≠ 0 then males + females - children else 0

section GroupingLemmas

variable {α : Type _} {κ : Type _} {M : Type _} [AddCommMonoid M]

lemma sum_map_add (f g : κ → M) :
    ∀ l : List κ, (l.map (fun x => f x + g x)).sum = (l.map f).sum + (l.map g).sum
  | [] => by simp
  | a :: l => by
    simp only [List.map_cons, List.sum_cons, sum_map_add f g l]
    abel

lemma sum_map_ite_of_not_mem [DecidableEq κ] (k : κ) (v : M) :
    ∀ l : List κ, k ∉ l → (l.map (fun g => if k = g then v else 0)).sum = 0
  | [], _ => by simp
  | a :: l, h => by
    have hka : k ≠ a := fun e => h (e ▸ List.mem_cons_self a l)
    have hkl : k ∉ l := fun e => h (List.mem_cons_of_mem a e)
    simp [hka, sum_map_ite_of_not_mem k v l hkl]

lemma sum_map_ite_single [DecidableEq κ] (k : κ) (v : M) :
    ∀ l : List κ, l.Nodup → k ∈ l → (l.map (fun g => if k = g then v else 0)).sum = v
  | [], _, hm => absurd hm (List.not_mem_nil k)
  | a :: l, hnd, hm => by
    rcases List.mem_cons.mp hm with rfl | hkl
    · have : k ∉ l := (List.nodup_cons.mp hnd).1
      simp [sum_map_ite_of_not_mem k v l this]
    · have hka : k ≠ a := by
        rintro rfl
        exact (List.nodup_cons.mp hnd).1 hkl
      simp [hka, sum_map_ite_single k v l (List.nodup_cons.mp hnd).2 hkl]

/-- Summing a weight group-by-group over a duplicate-free key list that covers
every element recovers the plain sum over the list. -/
lemma sum_grouped [DecidableEq κ] (key : α → κ) (w : α → M) :
    ∀ (rs : List α) (ks : List κ), ks.Nodup → (∀ r ∈ rs, key r ∈ ks) →
      (ks.map (fun g =>
        ((rs.filter (fun r => decide (key r = g))).map w).sum)).sum
      = (rs.map w).sum
  | [], ks, _, _ => by simp
  | a :: rs, ks, hnd, hcov => by
    have hsplit : ∀ g : κ,
        (((a :: rs).filter (fun r => decide (key r = g))).map w).sum
        = (if key a = g then w a else 0)
          + ((rs.filter (fun r => decide (key r = g))).map w).sum := by
      intro g
      by_cases h : key a = g <;> simp [List.filter_cons, h]
    simp only [hsplit, sum_map_add]
    rw [sum_map_ite_single (key a) (w a) ks hnd (hcov a (List.mem_cons_self a rs)),
      sum_grouped key w rs ks hnd (fun r hr => hcov r (List.mem_cons_of_mem a hr))]
    simp

lemma length_eq_sum_ones (l : List α) : (l.map (fun _ => (1 : Nat))).sum = l.length := by
  induction l with
  | nil => simp
  | cons a l ih => simp [ih, Nat.add_comm]

end GroupingLemmas

lemma find?_first {α : Type _} (p : α → Bool) :
    ∀ (l₁ : List α) (c : α) (l₂ : List α), (∀ x ∈ l₁, p x = false) → p c = true →
      List.find? p (l₁ ++ c :: l₂) = some c
  | [], c, l₂, _, hc => by simp [List.find?_cons_of_pos _ hc]
  | a :: l₁, c, l₂, h, hc => by
    have ha : p a = false := h a (List.mem_cons_self a l₁)
    rw [List.cons_append, List.find?_cons_of_neg _ (by simp [ha]),
      find?_first p l₁ c l₂ (fun x hx => h x (List.mem_cons_of_mem a hx)) hc]

lemma sum_flags_eq_count_filter (f : Record → Nat) :
    ∀ rs : List Record, (∀ r ∈ rs, f r ≤ 1) →
      (rs.map f).sum = (rs.filter (fun r => decide (f r = 1))).length
  | [], _ => by simp
  | a :: rs, h => by
    have ha : f a ≤ 1 := h a (List.mem_cons_self a rs)
    have htl := sum_flags_eq_count_filter f rs (fun r hr => h r (List.mem_cons_of_mem a hr))
    interval_cases hfa : f a <;>
      simp [List.filter_cons, hfa, htl, Nat.add_comm]

/-! Concrete sample data used by witnesses and counterexamples. -/

/-- Sample record: a 2020 Mediterranean drowning incident. -/
def recDrown : Record :=
  { Incident_ID := "2020.MMP.00001", Reported_Year := some 2020,
    Region := some "Mediterranean", Country := some "Greece",
    Migration_Route := some "Eastern Mediterranean route",
    codFlags := [("Drowning", 1)],
    Number_Dead := 5, Minimum_Missing := 2, Total_Dead_and_Missing := 7,
    Females := 1, Males := 4, Unknown_Sex := 2,
    Latitude := 35, Longitude := 25 }

/-- Sample record: a 2021 violence incident whose drowning flag is 0. -/
def recViolence : Record :=
  { Incident_ID := "2021.MMP.00002", Reported_Year := some 2021,
    Region := some "North America", Country := some "Mexico",
    Migration_Route := some "US-Mexico border crossing",
    codFlags := [("Drowning", 0), ("Violence", 1)],
    Number_Dead := 1, Minimum_Missing := 1, Total_Dead_and_Missing := 2,
    Females := 0, Males := 1, Unknown_Sex := 1,
    Latitude := 19, Longitude := -99 }

/-- Sample record lying on the equator: latitude 0, longitude 50. -/
def recEquator : Record :=
  { Incident_ID := "2020.MMP.00003", Reported_Year := some 2020,
    Region := some "Eastern Africa", Country := some "Somalia",
    Migration_Route := some "Eastern Route to/from EHOA",
    codFlags := [("Drowning", 1)],
    Number_Dead := 3, Minimum_Missing := 0, Total_Dead_and_Missing := 3,
    Females := 1, Males := 2, Unknown_Sex := 0,
    Latitude := 0, Longitude := 50 }

/-- Sample record carrying the no-coordinates sentinel (0, 0). -/
def recNoCoords : Record :=
  { Incident_ID := "2021.MMP.00004", Reported_Year := some 2021,
    Region := some "Northern Africa", Country := some "Libya",
    Migration_Route := some "Central Mediterranean route",
    codFlags := [("Mixed or unknown", 1)],
    Number_Dead := 2, Minimum_Missing := 0, Total_Dead_and_Missing := 2,
    Females := 0, Males := 0, Unknown_Sex := 2,
    Latitude := 0, Longitude := 0 }

/-- Sample raw CSV row whose `Number_Dead` cell fails numeric parsing. -/
def rawSample : RawRecord :=
  { Incident_ID := "2019.MMP.00005", Reported_Year := some 2019,
    Region := some "Mediterranean", Country := some "Italy",
    Migration_Route := some "Central Mediterranean route",
    codFlags := [("Drowning", 1)],
    Number_Dead := none, Minimum_Missing := some 2,
    Females := 0, Males := 0, Unknown_Sex := 2,
    Latitude := 36, Longitude := 14 }

/-- Selection asking only for drowning incidents. -/
def selDrowning : Selection :=
  { Reported_Year := none, Region := none, Country := none,
    COD := some "Drowning", Migration_Route := none }

/-- Selection naming a cause-of-death key absent from `COD_COLUMNS`. -/
def selUnknownCOD : Selection :=
  { Reported_Year := none, Region := none, Country := none,
    COD := some "Meteor Strike", Migration_Route := none }

/-- Selection naming a region that no record carries. -/
def selUnknownRegion : Selection :=
  { Reported_Year := none, Region := some "Atlantis", Country := none,
    COD := none, Migration_Route := none }

/-! Claim theorems. -/

/-- C7: for every record, the derived confirmed-adults count equals
males + females − children when the unknown-age count
(totalDeadAndMissing − children) is nonzero, and equals 0 otherwise; the
derivation applies no clamping, so a negative value is kept as is. -/
theorem confirmed_adults_rule (t f m c : Int) :
    (Unknown_Age_Status t c ≠ 0 → Confirmed_Adults t f m c = m + f - c) ∧
    (Unknown_Age_Status t c = 0 → Confirmed_Adults t f m c = 0) := by
  constructor
  · intro h
    simp [Confirmed_Adults, h]
  · intro h
    simp [Confirmed_Adults, h]

/-- C7 witness: with total 10, females 1, males 1, children 3 the unknown-age
count is nonzero and the derived count is the negative value −1, kept
unclamped; with total 4, children 4 the unknown-age count is zero and the
derived count is 0. -/
theorem confirmed_adults_rule_witness :
    Confirmed_Adults 10 1 1 3 = -1 ∧ Confirmed_Adults 10 1 1 3 < 0 ∧
    Confirmed_Adults 4 2 2 4 = 0 := by
  have h₁ := (confirmed_adults_rule 10 1 1 3).1 (by decide)
  have h₂ := (confirmed_adults_rule 4 2 2 4).2 (by decide)
  refine ⟨by rw [h₁]; decide, by rw [h₁]; decide, h₂⟩

/-- C5: after the startup load, every record satisfies
`Total_Dead_and_Missing = Number_Dead + Minimum_Missing` (the total is
recomputed from the two coerced addends at load), and a query only selects
records from the loaded store — the filtered subset is a sublist of it, so no
record is changed. -/
theorem load_total_invariant (xs : List RawRecord) (s : Selection) :
    (∀ r ∈ load xs, r.Total_Dead_and_Missing = r.Number_Dead + r.Minimum_Missing) ∧
    (query s (load xs)).records.Sublist (load xs) := by
  constructor
  · intro r hr
    rcases List.mem_map.mp hr with ⟨x, _, rfl⟩
    rfl
  · exact List.filter_sublist _

/-- C5 witness: the invariant holds for the loaded form of a raw row whose
`Number_Dead` cell failed numeric parsing. -/
theorem load_total_invariant_witness :
    (preprocess rawSample).Total_Dead_and_Missing
      = (preprocess rawSample).Number_Dead + (preprocess rawSample).Minimum_Missing :=
  (load_total_invariant [rawSample] selAll).1 (preprocess rawSample) (by simp [load])

/-- C6 counterexample: the claim fails in both directions on concrete
records.  The animated map of app_advanced.py drops the equator record
(latitude 0, longitude 50) even though its coordinates are not the (0,0)
sentinel, and the main map of app.py renders the (0,0) sentinel record
instead of excluding it. -/
theorem coordinate_sentinel_counterexample :
    update_animated_map [recEquator] = [] ∧
    update_map [recNoCoords] = [recNoCoords] := by
  constructor
  · decide
  · rfl

/-- C6 amended: a record is kept by the advanced dashboard's animated map iff
it is in the filtered data and has both latitude and longitude nonzero — so
the (0,0) sentinel is excluded, but so is any record with latitude 0 or
longitude 0 alone; the main dashboard's map applies no coordinate exclusion
and renders every filtered record. -/
theorem coordinate_filter_rule (data : List Record) (r : Record) :
    (r ∈ update_animated_map data ↔
      r ∈ data ∧ r.Latitude ≠ 0 ∧ r.Longitude ≠ 0) ∧
    update_map data = data := by
  constructor
  · simp [update_animated_map, List.mem_filter]
  · rfl

/-- C10: `Primary_COD` is the first category of the fixed `COD_COLUMNS` order
whose flag is 1, or "Unknown" when no listed flag is set, and grouping
records by it partitions them — the class sizes sum to the record count. -/
theorem primary_cod_rule (r : Record) (recs : List Record) :
    ((∀ c ∈ COD_COLUMNS, flagValue r c ≠ 1) → get_primary_cod r = "Unknown") ∧
    (∀ l₁ c l₂, COD_COLUMNS = l₁ ++ c :: l₂ →
      (∀ c' ∈ l₁, flagValue r c' ≠ 1) → flagValue r c = 1 →
      get_primary_cod r = c) ∧
    (((recs.map get_primary_cod).dedup.map
        (fun c => (recs.filter (fun x => decide (get_primary_cod x = c))).length)).sum
      = recs.length) := by
  refine ⟨?_, ?_, ?_⟩
  · intro h
    have hnone : COD_COLUMNS.find? (fun c => decide (flagValue r c = 1)) = none :=
      List.find?_eq_none.mpr (fun c hc => by simpa using h c hc)
    simp [get_primary_cod, hnone]
  · intro l₁ c l₂ hsplit h1 hc
    have hsome : COD_COLUMNS.find? (fun c' => decide (flagValue r c' = 1)) = some c := by
      rw [hsplit]
      exact find?_first _ l₁ c l₂ (fun x hx => by simpa using h1 x hx) (by simpa using hc)
    simp [get_primary_cod, hsome]
  · have h := sum_grouped get_primary_cod (fun _ => (1 : Nat)) recs
      ((recs.map get_primary_cod).dedup) (List.nodup_dedup _)
      (fun x hx => List.mem_dedup.mpr (List.mem_map_of_mem _ hx))
    simp only [← length_eq_sum_ones]
    exact h

/-- C10 witness: a record flagged for violence but not drowning gets
primary cause "Violence", the first set flag in `COD_COLUMNS` order. -/
theorem primary_cod_rule_witness :
    get_primary_cod recViolence = "Violence" :=
  (primary_cod_rule recViolence []).2.1
    ["Other Accidents", "Drowning", "Lack of Shelter, Food, or Water",
     "Mixed or unknown", "Sickness", "Transportation Accident"]
    "Violence" [] rfl (by decide) (by decide)

/-- C1: at the selection asking for drowning incidents over a two-record
store, the one-pass mask filter of app.py keeps only the flagged record,
while the store callback `filter` of Missing_Migrants_061121.py returns both
records — its `return MM_Route` discards the computed `MM_COD`, so the
cause-of-death constraint is lost and the record whose drowning flag is 0 is
included.  The two implementations are therefore not extensionally equal. -/
theorem cod_filter_divergence :
    filter_mm_data selDrowning [recDrown, recViolence] = [recDrown] ∧
    Legacy.filter selDrowning [recDrown, recViolence] = some [recDrown, recViolence] ∧
    flagValue recViolence "Drowning" ≠ 1 := by
  refine ⟨by decide, by decide, by decide⟩

/-- C2: the query is a total function of the selection and store, its
filtered subset is always a sublist of the store, and on an empty filtered
subset every scalar and every grouped aggregate degrades to its zero/empty
form instead of erroring. -/
theorem query_total_on_empty (s : Selection) (store : List Record) :
    (query s store).records.Sublist store ∧
    ((query s store).records = [] →
      (query s store).incidentCount = 0 ∧
      (query s store).totalDeadAndMissing = 0 ∧
      (query s store).byRegion = [] ∧
      (query s store).byCod = [] ∧
      (query s store).bySex = (0, 0, 0)) := by
  constructor
  · exact List.filter_sublist _
  · intro h
    have h' : filter_mm_data s store = [] := h
    refine ⟨?_, ?_, ?_, ?_, ?_⟩ <;>
      simp [query, h', update_summary_incidents, update_summary_total,
        update_region_pie, update_cod_bar, update_sex_pie]

/-- C2 witness: on the empty store the query returns zero counts and empty
aggregates. -/
theorem query_total_on_empty_witness :
    (query selAll ([] : List Record)).incidentCount = 0 ∧
    (query selAll ([] : List Record)).byCod = [] := by
  have h := (query_total_on_empty selAll []).2 rfl
  exact ⟨h.1, h.2.2.2.1⟩

/-- C3 counterexample: a selection naming the cause-of-death key
"Meteor Strike", which is absent from `COD_COLUMNS`, does not match nothing:
the guard `cod in COD_COLUMNS` of `_filter_mm_data_cached` skips the
constraint, so the query returns the whole store and a nonzero incident
count where the claim requires an empty result. -/
theorem unknown_cod_counterexample :
    (query selUnknownCOD [recDrown]).records = [recDrown] ∧
    (query selUnknownCOD [recDrown]).incidentCount ≠ 0 := by
  refine ⟨by decide, by decide⟩

/-- C3 amended: a selection value absent from the store is treated as
matching nothing for the year, region, country and migration-route
dimensions — the result is empty with incident count 0 — but an unknown
cause-of-death key is ignored: the query behaves exactly as if that dropdown
were on "All". -/
theorem unknown_selection_rule (s : Selection) (store : List Record) :
    (∀ y, s.Reported_Year = some y → (∀ r ∈ store, r.Reported_Year ≠ some y) →
      (query s store).records = [] ∧ (query s store).incidentCount = 0) ∧
    (∀ v, s.Region = some v → (∀ r ∈ store, r.Region ≠ some v) →
      (query s store).records = [] ∧ (query s store).incidentCount = 0) ∧
    (∀ v, s.Country = some v → (∀ r ∈ store, r.Country ≠ some v) →
      (query s store).records = [] ∧ (query s store).incidentCount = 0) ∧
    (∀ v, s.Migration_Route = some v → (∀ r ∈ store, r.Migration_Route ≠ some v) →
      (query s store).records = [] ∧ (query s store).incidentCount = 0) ∧
    (∀ c, s.COD = some c → c ∉ COD_COLUMNS →
      query s store = query { s with COD := none } store) := by
  have hcount : ∀ h : filter_mm_data s store = [],
      (query s store).records = [] ∧ (query s store).incidentCount = 0 := by
    intro h
    refine ⟨h, ?_⟩
    show update_summary_incidents (filter_mm_data s store) = 0
    rw [h]
    rfl
  refine ⟨?_, ?_, ?_, ?_, ?_⟩
  · intro y hy h
    refine hcount (List.filter_eq_nil_iff.mpr ?_)
    intro r hr
    simp [rowMask, hy, h r hr]
  · intro v hv h
    refine hcount (List.filter_eq_nil_iff.mpr ?_)
    intro r hr
    simp [rowMask, hv, h r hr]
  · intro v hv h
    refine hcount (List.filter_eq_nil_iff.mpr ?_)
    intro r hr
    simp [rowMask, hv, h r hr]
  · intro v hv h
    refine hcount (List.filter_eq_nil_iff.mpr ?_)
    intro r hr
    simp [rowMask, hv, h r hr]
  · intro c hc hmem
    have hfilters : filter_mm_data s store = filter_mm_data { s with COD := none } store := by
      unfold filter_mm_data
      apply List.filter_congr
      intro r _
      simp [rowMask, hc, hmem]
    unfold query
    rw [hfilters]

/-- C3 witness: a selection naming the unknown region "Atlantis" yields the
empty result, and a selection naming the unknown cause-of-death key
"Meteor Strike" queries exactly as if the cause dropdown were on "All". -/
theorem unknown_selection_rule_witness :
    (query selUnknownRegion [recDrown]).records = [] ∧
    query selUnknownCOD [recDrown] = query { selUnknownCOD with COD := none } [recDrown] := by
  refine ⟨((unknown_selection_rule selUnknownRegion [recDrown]).2.1 "Atlantis" rfl
      (by decide)).1,
    (unknown_selection_rule selUnknownCOD [recDrown]).2.2.2.2 "Meteor Strike" rfl
      (by decide)⟩

/-- C4: with every dropdown on "All" the filtered subset is the whole store
in its original order; when incident identifiers are unique (the data-model
invariant), the incident count is the store size, and the dead-and-missing
total is the sum over all records. -/
theorem query_all_wildcards (store : List Record)
    (hids : (store.map Record.Incident_ID).Nodup) :
    (query selAll store).records = store ∧
    (query selAll store).incidentCount = store.length ∧
    (query selAll store).totalDeadAndMissing
      = (store.map Record.Total_Dead_and_Missing).sum := by
  have hrec : filter_mm_data selAll store = store := by
    apply List.filter_eq_self.mpr
    intro r _
    rfl
  refine ⟨hrec, ?_, ?_⟩
  · show update_summary_incidents (filter_mm_data selAll store) = store.length
    rw [hrec, update_summary_incidents, List.dedup_eq_self.mpr hids, List.length_map]
  · show update_summary_total (filter_mm_data selAll store) = _
    rw [hrec, update_summary_total]

/-- C4 witness: on a concrete two-record store with distinct identifiers the
all-wildcard query returns both records, incident count 2 and total 9. -/
theorem query_all_wildcards_witness :
    (query selAll [recDrown, recViolence]).records = [recDrown, recViolence] ∧
    (query selAll [recDrown, recViolence]).incidentCount = 2 ∧
    (query selAll [recDrown, recViolence]).totalDeadAndMissing = 9 := by
  have h := query_all_wildcards [recDrown, recViolence] (by decide)
  refine ⟨h.1, by rw [h.2.1]; rfl, by rw [h.2.2]; decide⟩

/-- C8: when every record of the filtered subset carries a region, the values
of the by-region aggregate sum to the scalar dead-and-missing total of the
same selection. -/
theorem region_aggregate_consistency (s : Selection) (store : List Record)
    (hreg : ∀ r ∈ (query s store).records, r.Region ≠ none) :
    (((query s store).byRegion.map Prod.snd).sum)
      = (query s store).totalDeadAndMissing := by
  show ((update_region_pie (filter_mm_data s store)).map Prod.snd).sum
      = update_summary_total (filter_mm_data s store)
  set recs := filter_mm_data s store with hrecs
  have hcov : ∀ r ∈ recs, r.Region ∈ (recs.filterMap Record.Region).dedup.map some := by
    intro r hr
    rcases hrg : r.Region with _ | g
    · exact absurd hrg (hreg r hr)
    · exact List.mem_map.mpr
        ⟨g, List.mem_dedup.mpr (List.mem_filterMap.mpr ⟨r, hr, hrg⟩), rfl⟩
  have hnd : ((recs.filterMap Record.Region).dedup.map some).Nodup :=
    (List.nodup_dedup _).map (Option.some_injective _)
  have h := sum_grouped Record.Region Record.Total_Dead_and_Missing recs
    ((recs.filterMap Record.Region).dedup.map some) hnd hcov
  rw [List.map_map] at h
  rw [update_region_pie, update_summary_total, List.map_map]
  exact h

/-- C8 witness: on the concrete two-region store under the all-wildcard
selection, the by-region values sum to the total. -/
theorem region_aggregate_consistency_witness :
    (((query selAll [recDrown, recViolence]).byRegion.map Prod.snd).sum)
      = (query selAll [recDrown, recViolence]).totalDeadAndMissing :=
  region_aggregate_consistency selAll [recDrown, recViolence] (by decide)

/-- C9: every entry of the by-cause-of-death aggregate carries one of the
fixed category names and the count of filtered records whose flag for that
category is set; no entry exceeds the incident count (given the 0/1 flag
invariant and unique incident identifiers); every fixed category appears when
the subset is nonempty; and the entries are sorted ascending by count. -/
theorem cod_aggregate_bounds (s : Selection) (store : List Record)
    (hflag : ∀ r ∈ store, ∀ c ∈ needed_cols, flagValue r c ≤ 1)
    (hids : (store.map Record.Incident_ID).Nodup) :
    (∀ p ∈ (query s store).byCod,
      p.1 ∈ needed_cols ∧
      p.2 = ((query s store).records.filter
        (fun r => decide (flagValue r p.1 = 1))).length ∧
      p.2 ≤ (query s store).incidentCount) ∧
    ((query s store).records ≠ [] →
      ∀ c ∈ needed_cols, ∃ n, (c, n) ∈ (query s store).byCod) ∧
    (query s store).byCod.Pairwise countLe := by
  have hq : (query s store).records = filter_mm_data s store := rfl
  set recs := filter_mm_data s store with hrecs
  have hsub : recs.Sublist store := List.filter_sublist _
  have hflag' : ∀ r ∈ recs, ∀ c ∈ needed_cols, flagValue r c ≤ 1 :=
    fun r hr => hflag r (hsub.subset hr)
  have hidrecs : (recs.map Record.Incident_ID).Nodup :=
    List.Nodup.sublist (hsub.map _) hids
  have hcount : (query s store).incidentCount = recs.length := by
    show update_summary_incidents recs = recs.length
    rw [update_summary_incidents, List.dedup_eq_self.mpr hidrecs, List.length_map]
  have hsum : ∀ c ∈ needed_cols,
      (recs.map (fun r => flagValue r c)).sum
        = (recs.filter (fun r => decide (flagValue r c = 1))).length := by
    intro c hc
    exact sum_flags_eq_count_filter _ recs (fun r hr => hflag' r hr c hc)
  by_cases hre : recs.isEmpty
  · have hnil : recs = [] := List.isEmpty_iff.mp hre
    have hbc : (query s store).byCod = [] := by
      show update_cod_bar recs = []
      simp [update_cod_bar, hre]
    refine ⟨?_, ?_, ?_⟩
    · intro p hp
      rw [hbc] at hp
      exact absurd hp (List.not_mem_nil p)
    · intro hne
      exact absurd (hq.trans hnil) hne
    · rw [hbc]
      exact List.Pairwise.nil
  · have hbc : (query s store).byCod
        = List.insertionSort countLe
            (needed_cols.map (fun c => (c, (recs.map (fun r => flagValue r c)).sum))) := by
      show update_cod_bar recs = _
      simp [update_cod_bar, hre]
    refine ⟨?_, ?_, ?_⟩
    · intro p hp
      rw [hbc, List.mem_insertionSort] at hp
      rcases List.mem_map.mp hp with ⟨c, hc, rfl⟩
      refine ⟨hc, hsum c hc, ?_⟩
      rw [hcount, hsum c hc]
      exact List.length_filter_le _ recs
    · intro _ c hc
      refine ⟨(recs.map (fun r => flagValue r c)).sum, ?_⟩
      rw [hbc, List.mem_insertionSort]
      exact List.mem_map.mpr ⟨c, hc, rfl⟩
    · rw [hbc]
      exact List.sorted_insertionSort countLe _

/-- C9 witness: on the concrete two-record store under the all-wildcard
selection, the by-cause aggregate is sorted ascending by count. -/
theorem cod_aggregate_bounds_witness :
    (query selAll [recDrown, recViolence]).byCod.Pairwise countLe :=
  (cod_aggregate_bounds selAll [recDrown, recViolence] (by decide) (by decide)).2.2

end MMSpec
